import Mathlib

/-!
Shallow embedding of the p2-ws photo-service request handlers
(src/p2-ws/server/api_post_image.js, api_get_image_labels.js,
api_get_images.js, api_get_image.js, api_delete_images.js).

Each handler is modelled as a pure function from

  * a relational-store state (`DbState`),
  * a per-request external-world oracle (`World`) fixing the outcome of
    every external call (S3, Rekognition, transient MySQL write failures,
    the uuid generated for the object key), and
  * the request inputs,

to a response record, the final store state and a trace of external
events (`Event`).  MySQL transactions are modelled by snapshot/restore:
`beginTransaction`/`commit` apply the accumulated writes, `rollback`
restores the snapshot.  `p-retry` with `{retries: 2}` is modelled by
`pRetry 2`: up to two re-invocations, surfacing the last error.
JavaScript's `ValueError`-vs-`Error` distinction is `JsError`.
Rekognition `Confidence` scores (floating point in the source) are
modelled as exact rationals; `Math.floor` is `Rat.floor`.
-/

/-- One row of the `users` table. -/
structure UserRow where
  userid : Int
  username : String
deriving Repr, DecidableEq

/-- One row of the `assets` table. -/
structure AssetRow where
  assetid : Int
  userid : Int
  localname : String
  bucketkey : String
deriving Repr, DecidableEq

/-- One row of the `labels` table. -/
structure LabelRow where
  assetid : Int
  label : String
  confidence : Int
deriving Repr, DecidableEq

/-- State of the relational store.  `nextAssetId` models the
AUTO_INCREMENT counter of `assets` (the bulk clear resets it to 1001). -/
structure DbState where
  users : List UserRow
  assets : List AssetRow
  labels : List LabelRow
  nextAssetId : Int
deriving Repr, DecidableEq

/-- Externally visible events issued by a handler, in order. -/
inductive Event where
  | connAcquire
  | connClose
  | dbQuery (sql : String)
  | beginTxn
  | commitTxn
  | rollbackTxn
  | assetInsert (assetid : Int)
  | assetCommit (assetid : Int)
  | labelInsert (assetid : Int) (name : String)
  | bktPut (key : String)
  | bktGet (key : String)
  | bktDeleteObjects
  | rkgDetect
deriving Repr, DecidableEq

/-- JavaScript errors thrown by the handlers: the custom `ValueError`
(caller error) versus a plain `Error`. -/
inductive JsError where
  | valueError (msg : String)
  | error (msg : String)
deriving Repr, DecidableEq

/-- `err.message`. -/
def JsError.message : JsError → String
  | JsError.valueError m => m
  | JsError.error m => m

/-- One element of a Rekognition `DetectLabels` response's `Labels`
array: `Name` and the floating-point `Confidence`, modelled exactly. -/
structure RkgLabel where
  Name : String
  Confidence : ℚ
deriving Repr, DecidableEq

/-- Per-request oracle fixing every external outcome: the uuid used in
the object key, success/failure of each external call, the detector's
response, and error messages for the failing calls. -/
structure World where
  uuid : String
  bktPutOk : Bool
  bktPutErr : String
  detectResult : Except String (List RkgLabel)
  assetInsertOk : Bool
  assetInsertErr : String
  labelInsertOk : Int → String → Bool
  labelInsertErr : String
  clearDbOk : Bool
  clearDbErr : String
  bktDeleteOk : Bool
  bktDeleteErr : String
  bktGetOk : Bool
  bktGetErr : String
  bktGetData : String

/-- Result of one fallible unit of work: outcome, store state after it,
and the events it issued (a delta trace, appended by sequencing). -/
abbrev Res (α : Type) := Except JsError α × DbState × List Event

/-- `p-retry` with `{retries: n}`: invoke the unit of work; on failure
re-invoke up to `n` more times; surface the last failure.  The oracle is
fixed per request, so each re-invocation sees the same external world. -/
def pRetry : Nat → (DbState → Res α) → DbState → Res α
  | 0, op, db => op db
  | Nat.succ n, op, db =>
    match op db with
    | (Except.ok a, db1, tr1) => (Except.ok a, db1, tr1)
    | (Except.error _, db1, tr1) =>
      match pRetry n op db1 with
      | (r, db2, tr2) => (r, db2, tr1 ++ tr2)

/-- Sequencing of two awaited units of work (exception short-circuit). -/
def bindR (x : Res α) (f : α → DbState → Res β) : Res β :=
  match x.1 with
  | Except.ok a => ((f a x.2.1).1, (f a x.2.1).2.1, x.2.2 ++ (f a x.2.1).2.2)
  | Except.error e => (Except.error e, x.2.1, x.2.2)

/-- Code-point comparison of strings as character lists (the MySQL
collation used by `Order By` is abstracted to this fixed total order). -/
def strLeAux : List Char → List Char → Bool
  | [], _ => true
  | _ :: _, [] => false
  | a :: as, b :: bs =>
    if a.toNat < b.toNat then true
    else if b.toNat < a.toNat then false
    else strLeAux as bs

/-- `a` sorts no later than `b` under the modelled collation. -/
def strLe (a b : String) : Bool := strLeAux a.data b.data

/-- Insert a label row into a list sorted by `label`. -/
def insertByLabel (r : LabelRow) : List LabelRow → List LabelRow
  | [] => [r]
  | x :: xs => if strLe r.label x.label then r :: x :: xs else x :: insertByLabel r xs

/-- `Order By label Asc` on a result set. -/
def orderByLabelAsc : List LabelRow → List LabelRow
  | [] => []
  | x :: xs => insertByLabel x (orderByLabelAsc xs)

/-- Insert an asset row into a list sorted by `assetid`. -/
def insertByAssetid (r : AssetRow) : List AssetRow → List AssetRow
  | [] => [r]
  | x :: xs => if r.assetid ≤ x.assetid then r :: x :: xs else x :: insertByAssetid r xs

/-- `Order By assetid Asc` on a result set. -/
def orderByAssetidAsc : List AssetRow → List AssetRow
  | [] => []
  | x :: xs => insertByAssetid x (orderByAssetidAsc xs)

/-! ## api_post_image.js -/

namespace ApiPostImage

/-- `lookup_user`: select the username for a userid; zero rows is the
caller error `ValueError("no such userid")`, more than one is an
internal error; one row yields the username. -/
def lookup_user (db : DbState) (userid : Int) : Res String :=
  let rows := db.users.filter (fun u => u.userid == userid)
  let tr := [Event.dbQuery "Select username From users Where userid = ?"]
  match rows with
  | [] => (Except.error (JsError.valueError "no such userid"), db, tr)
  | [u] => (Except.ok u.username, db, tr)
  | _ => (Except.error (JsError.error "unexpected duplicate userid"), db, tr)

/-- `upload_to_bucket`: PutObject under `username/uuid-local_filename`;
returns the key on success, rethrows the S3 error otherwise. -/
def upload_to_bucket (w : World) (db : DbState) (username local_filename : String) :
    Res String :=
  let bkt_key := username ++ "/" ++ w.uuid ++ "-" ++ local_filename
  if w.bktPutOk then (Except.ok bkt_key, db, [Event.bktPut bkt_key])
  else (Except.error (JsError.error w.bktPutErr), db, [Event.bktPut bkt_key])

/-- `update_db`: begin a transaction, insert one asset row, commit and
return the new `insertId`; on failure roll back and rethrow. -/
def update_db (w : World) (db : DbState) (userid : Int)
    (local_filename bkt_key : String) : Res Int :=
  let assetid := db.nextAssetId
  if w.assetInsertOk then
    ( Except.ok assetid,
      { db with
          assets := db.assets ++ [⟨assetid, userid, local_filename, bkt_key⟩],
          nextAssetId := assetid + 1 },
      [Event.beginTxn, Event.assetInsert assetid, Event.assetCommit assetid] )
  else
    ( Except.error (JsError.error w.assetInsertErr), db,
      [Event.beginTxn, Event.rollbackTxn] )

/-- `detect_labels`: DetectLabels with `MaxLabels: 10, MinConfidence: 90`;
the oracle supplies the response's `Labels` array or the thrown error.
No store state is touched. -/
def detect_labels (w : World) (db : DbState) : Res (List RkgLabel) :=
  match w.detectResult with
  | Except.ok ls => (Except.ok ls, db, [Event.rkgDetect])
  | Except.error m => (Except.error (JsError.error m), db, [Event.rkgDetect])

/-- The insert loop of `update_labels`: one insert per detected label,
confidence `Math.floor`ed; the oracle decides whether each insert
statement succeeds. -/
def insert_label_rows (w : World) (assetid : Int) :
    List RkgLabel → DbState → Res Unit
  | [], db => (Except.ok (), db, [])
  | l :: rest, db =>
    if w.labelInsertOk assetid l.Name then
      let db1 :=
        { db with labels := db.labels ++ [⟨assetid, l.Name, Rat.floor l.Confidence⟩] }
      match insert_label_rows w assetid rest db1 with
      | (r, db2, tr) => (r, db2, Event.labelInsert assetid l.Name :: tr)
    else
      (Except.error (JsError.error w.labelInsertErr), db,
        [Event.labelInsert assetid l.Name])

/-- `update_labels`: begin a transaction, insert every detected label,
commit; on any failure roll back (restoring the snapshot) and rethrow. -/
def update_labels (w : World) (db : DbState) (assetid : Int)
    (rkg_labels : List RkgLabel) : Res Unit :=
  match insert_label_rows w assetid rkg_labels db with
  | (Except.ok _, db1, tr) =>
    (Except.ok (), db1, Event.beginTxn :: tr ++ [Event.commitTxn])
  | (Except.error e, _, tr) =>
    (Except.error e, db, Event.beginTxn :: tr ++ [Event.rollbackTxn])

/-- The concurrent fan-out: `update_db` (under retry) and
`detect_labels` are both started and both awaited (`Promise.all`).
`detect_labels` never touches the store, so running it after the
registration step observes the same states; both units always run and
both traces occur.  When both fail, `Promise.all` surfaces one of the
two rejections; the model surfaces the registration error. -/
def fanout (w : World) (userid : Int) (local_filename bkt_key : String)
    (db : DbState) : Res (Int × List RkgLabel) :=
  let a := pRetry 2 (fun d => update_db w d userid local_filename bkt_key) db
  let d := detect_labels w a.2.1
  match a.1, d.1 with
  | Except.ok assetid, Except.ok ls => (Except.ok (assetid, ls), d.2.1, a.2.2 ++ d.2.2)
  | Except.error e, _ => (Except.error e, d.2.1, a.2.2 ++ d.2.2)
  | _, Except.error e => (Except.error e, d.2.1, a.2.2 ++ d.2.2)

/-- The body of `post_image`'s `try` block: user lookup (retried),
object upload, concurrent registration and detection, label persistence
(retried); yields the assigned assetid. -/
def try_post (w : World) (userid : Int) (local_filename : String)
    (db : DbState) : Res Int :=
  bindR (pRetry 2 (fun d => lookup_user d userid) db) (fun username db1 =>
  bindR (upload_to_bucket w db1 username local_filename) (fun bkt_key db2 =>
  bindR (fanout w userid local_filename bkt_key db2) (fun pair db4 =>
  bindR (pRetry 2 (fun d => update_labels w d pair.1 pair.2) db4) (fun _ db5 =>
  (Except.ok pair.1, db5, [])))))

/-- Response shape of POST /image. -/
structure PostImageResp where
  status : Nat
  message : String
  assetid : Int
deriving Repr, DecidableEq

/-- The `catch` block: `err instanceof ValueError ? 400 : 500`, with the
error's message and assetid -1. -/
def post_image_err : JsError → PostImageResp
  | JsError.valueError m => ⟨400, m, -1⟩
  | JsError.error m => ⟨500, m, -1⟩

/-- `post_image`: acquire the connection, run the pipeline, answer 200
`{message: "success", assetid}` or the classified error, and close the
connection in `finally` on every path. -/
def post_image (w : World) (db : DbState) (userid : Int)
    (local_filename : String) : PostImageResp × DbState × List Event :=
  match try_post w userid local_filename db with
  | (Except.ok assetid, db5, tr) =>
    (⟨200, "success", assetid⟩, db5, Event.connAcquire :: tr ++ [Event.connClose])
  | (Except.error e, db5, tr) =>
    (post_image_err e, db5, Event.connAcquire :: tr ++ [Event.connClose])

end ApiPostImage

/-! ## api_get_image_labels.js -/

namespace ApiGetImageLabels

/-- `validate_assetid`: zero rows throws `Error("no such assetid")`,
more than one throws the duplicate error.  (Note: a plain `Error`, not a
`ValueError`.) -/
def validate_assetid (db : DbState) (assetid : Int) : Res Unit :=
  let rows := db.assets.filter (fun a => a.assetid == assetid)
  let tr := [Event.dbQuery "Select assetid From assets Where assetid = ?"]
  match rows with
  | [] => (Except.error (JsError.error "no such assetid"), db, tr)
  | [_] => (Except.ok (), db, tr)
  | _ => (Except.error (JsError.error "unexpected duplicate assetid"), db, tr)

/-- One element of the returned `data` list. -/
structure LabelOut where
  label : String
  confidence : Int
deriving Repr, DecidableEq

/-- `fetch_labels`: the asset's labels ordered by label ascending
(`parseInt` on an integer column is the identity). -/
def fetch_labels (db : DbState) (assetid : Int) : Res (List LabelOut) :=
  let rows := orderByLabelAsc (db.labels.filter (fun l => l.assetid == assetid))
  ( Except.ok (rows.map (fun r => ⟨r.label, r.confidence⟩)), db,
    [Event.dbQuery "Select label, confidence From labels Where assetid = ? Order By label Asc"] )

/-- Response shape of GET /image_labels. -/
structure LabelsResp where
  status : Nat
  message : String
  data : List LabelOut
deriving Repr, DecidableEq

/-- `get_image_labels`: acquire the connection, validate the assetid
(retried), fetch the labels (retried), answer 200 on success and 500
with an empty list on any error.  The source has no `finally` and never
calls `dbConn.end()`, so no close event is ever issued. -/
def get_image_labels (db : DbState) (assetid : Int) :
    LabelsResp × DbState × List Event :=
  match pRetry 2 (fun d => validate_assetid d assetid) db with
  | (Except.error e, db1, tr1) =>
    (⟨500, e.message, []⟩, db1, Event.connAcquire :: tr1)
  | (Except.ok _, db1, tr1) =>
    match pRetry 2 (fun d => fetch_labels d assetid) db1 with
    | (Except.error e, db2, tr2) =>
      (⟨500, e.message, []⟩, db2, Event.connAcquire :: (tr1 ++ tr2))
    | (Except.ok records, db2, tr2) =>
      (⟨200, "success", records⟩, db2, Event.connAcquire :: (tr1 ++ tr2))

end ApiGetImageLabels

/-! ## api_get_images.js -/

namespace ApiGetImages

/-- `try_get_images`: opens its own connection, builds the query with a
`Where userid = ?` placeholder iff `userid >= 0`, but passes the bind
value `[userid]` iff `userid` is truthy in JavaScript (nonzero): with
`userid = 0` the statement has one placeholder and zero bind values and
`mysql2`'s `execute` fails; an extra bind value with no placeholder
(negative `userid`) is ignored.  On success the rows are returned
ordered by assetid ascending; the connection is closed in `finally`. -/
def try_get_images (db : DbState) (userid : Int) : Res (List AssetRow) :=
  let placeholders : Nat := if userid ≥ 0 then 1 else 0
  let params : Nat := if userid = 0 then 0 else 1
  let tr := [Event.connAcquire, Event.dbQuery "Select ... From assets", Event.connClose]
  if params < placeholders then
    (Except.error (JsError.error "Bind parameters count mismatch"), db, tr)
  else
    let rows :=
      if userid ≥ 0 then db.assets.filter (fun a => a.userid == userid)
      else db.assets
    (Except.ok (orderByAssetidAsc rows), db, tr)

/-- Response shape of GET /images. -/
structure ImagesResp where
  status : Nat
  message : String
  data : List AssetRow
deriving Repr, DecidableEq

/-- The `userid` query parameter as seen after JavaScript truthiness and
`parseInt`: `none` when absent (or empty, hence falsy), `some none` when
present but not numeric (`NaN`), `some (some k)` when it parses to `k`. -/
abbrev UseridParam := Option (Option Int)

/-- `get_images`: defaults `userid` to -1, overrides it from the query
parameter when that is truthy, rejects `NaN`, then runs
`try_get_images` under retry; 200 with the rows on success, 500 with an
empty list on any error. -/
def get_images (db : DbState) (param : UseridParam) :
    ImagesResp × DbState × List Event :=
  match param with
  | some none => (⟨500, "get_images(): userid is not numeric", []⟩, db, [])
  | some (some k) =>
    (match pRetry 2 (fun d => try_get_images d k) db with
     | (Except.error e, db1, tr1) => (⟨500, e.message, []⟩, db1, tr1)
     | (Except.ok rows, db1, tr1) => (⟨200, "success", rows⟩, db1, tr1))
  | none =>
    (match pRetry 2 (fun d => try_get_images d (-1)) db with
     | (Except.error e, db1, tr1) => (⟨500, e.message, []⟩, db1, tr1)
     | (Except.ok rows, db1, tr1) => (⟨200, "success", rows⟩, db1, tr1))

end ApiGetImages

/-! ## api_get_image.js -/

namespace ApiGetImage

/-- `validate_assetid`: the whole matching asset row; zero rows throws
`Error("get_image: no such assetid")`. -/
def validate_assetid (db : DbState) (assetid : Int) : Res AssetRow :=
  let rows := db.assets.filter (fun a => a.assetid == assetid)
  let tr := [Event.dbQuery "Select userid, localname, bucketkey From assets Where assetid = ?"]
  match rows with
  | [] => (Except.error (JsError.error "get_image: no such assetid"), db, tr)
  | [r] => (Except.ok r, db, tr)
  | _ => (Except.error (JsError.error "get_image: unexpected duplicate assetid"), db, tr)

/-- `download_image_str`: GetObject by bucket key, transformed to a
base64 string (content supplied by the oracle). -/
def download_image_str (w : World) (db : DbState) (bkt_key : String) : Res String :=
  if w.bktGetOk then (Except.ok w.bktGetData, db, [Event.bktGet bkt_key])
  else (Except.error (JsError.error w.bktGetErr), db, [Event.bktGet bkt_key])

/-- Response shape of GET /image.  On error the source sends only
`message` and `userid`; the remaining fields are undefined (`none`). -/
structure ImageResp where
  status : Nat
  message : String
  userid : Int
  local_filename : Option String
  data : Option String
deriving Repr, DecidableEq

/-- `get_image`: acquire the connection; `parseInt` the assetid path
parameter (`none` models `NaN`) and fail with the non-numeric error
before any query or object-store call; otherwise validate the assetid
(retried), download the blob, answer 200; every error path answers 500
with userid -1; the connection is closed in `finally` on every path. -/
def get_image (w : World) (db : DbState) (assetidParam : Option Int) :
    ImageResp × DbState × List Event :=
  match assetidParam with
  | none =>
    ( ⟨500, "get_image: assetid is not numeric", -1, none, none⟩, db,
      [Event.connAcquire, Event.connClose] )
  | some assetid =>
    match pRetry 2 (fun d => validate_assetid d assetid) db with
    | (Except.error e, db1, tr1) =>
      (⟨500, e.message, -1, none, none⟩, db1,
        Event.connAcquire :: tr1 ++ [Event.connClose])
    | (Except.ok row, db1, tr1) =>
      match download_image_str w db1 row.bucketkey with
      | (Except.error e, db2, tr2) =>
        (⟨500, e.message, -1, none, none⟩, db2,
          Event.connAcquire :: tr1 ++ tr2 ++ [Event.connClose])
      | (Except.ok img_str, db2, tr2) =>
        (⟨200, "success", row.userid, some row.localname, some img_str⟩, db2,
          Event.connAcquire :: tr1 ++ tr2 ++ [Event.connClose])

end ApiGetImage

/-! ## api_delete_images.js -/

namespace ApiDeleteImages

/-- `get_keys`: all bucket keys currently in `assets`. -/
def get_keys (db : DbState) : Res (List String) :=
  ( Except.ok (db.assets.map (fun a => a.bucketkey)), db,
    [Event.dbQuery "Select bucketkey From assets"] )

/-- `clear_db`: one transaction that truncates `labels` and `assets`
(with foreign-key checks suspended around the truncations) and resets
the assets AUTO_INCREMENT to 1001; the oracle decides whether the
statement sequence succeeds; on failure roll back and rethrow.  The five
statements are modelled as one atomic unit at the granularity the
handler observes. -/
def clear_db (w : World) (db : DbState) : Res Unit :=
  if w.clearDbOk then
    ( Except.ok (),
      { db with labels := [], assets := [], nextAssetId := 1001 },
      [Event.beginTxn, Event.dbQuery "Truncate Table labels; Truncate Table assets", Event.commitTxn] )
  else
    (Except.error (JsError.error w.clearDbErr), db, [Event.beginTxn, Event.rollbackTxn])

/-- `clear_bkt`: DeleteObjects for the collected keys; rethrows the S3
error on failure. -/
def clear_bkt (w : World) (db : DbState) : Res Unit :=
  if w.bktDeleteOk then (Except.ok (), db, [Event.bktDeleteObjects])
  else (Except.error (JsError.error w.bktDeleteErr), db, [Event.bktDeleteObjects])

/-- Response shape of DELETE /images. -/
structure ClearResp where
  status : Nat
  message : String
deriving Repr, DecidableEq

/-- `delete_images`: fetch the keys (retried), clear the database, then
(only when there is at least one key) delete the blobs; 200
`{message: "success"}` only when every step succeeded; ANY caught error,
including a bucket-deletion failure after the database was cleared, is
answered as 500 with the error's message.  The connection is closed in
`finally` on every path. -/
def delete_images (w : World) (db : DbState) : ClearResp × DbState × List Event :=
  match pRetry 2 (fun d => get_keys d) db with
  | (Except.error e, db1, tr1) =>
    (⟨500, e.message⟩, db1, Event.connAcquire :: tr1 ++ [Event.connClose])
  | (Except.ok keys, db1, tr1) =>
    match clear_db w db1 with
    | (Except.error e, db2, tr2) =>
      (⟨500, e.message⟩, db2, Event.connAcquire :: tr1 ++ tr2 ++ [Event.connClose])
    | (Except.ok _, db2, tr2) =>
      if 0 < keys.length then
        match clear_bkt w db2 with
        | (Except.error e, db3, tr3) =>
          (⟨500, e.message⟩, db3, Event.connAcquire :: tr1 ++ tr2 ++ tr3 ++ [Event.connClose])
        | (Except.ok _, db3, tr3) =>
          (⟨200, "success"⟩, db3, Event.connAcquire :: tr1 ++ tr2 ++ tr3 ++ [Event.connClose])
      else
        (⟨200, "success"⟩, db2, Event.connAcquire :: tr1 ++ tr2 ++ [Event.connClose])

end ApiDeleteImages

/-! ## Trace predicates and generic lemmas -/

/-- Is this event the commit of the asset-registration transaction? -/
def isAssetCommit : Event → Bool
  | Event.assetCommit _ => true
  | _ => false

/-- Is this event a label-row insert statement? -/
def isLabelInsert : Event → Bool
  | Event.labelInsert _ _ => true
  | _ => false

/-- Is this event an object-store put? -/
def isBktPut : Event → Bool
  | Event.bktPut _ => true
  | _ => false

/-- `labelsAfterCommit tr c` holds when every label-insert event in `tr`
is preceded by an asset-commit event (`c` records whether one was
already seen). -/
def labelsAfterCommit : List Event → Bool → Bool
  | [], _ => true
  | e :: rest, c => (!isLabelInsert e || c) && labelsAfterCommit rest (c || isAssetCommit e)

theorem labelsAfterCommit_append (A B : List Event) (c : Bool) :
    labelsAfterCommit (A ++ B) c =
      (labelsAfterCommit A c && labelsAfterCommit B (c || A.any isAssetCommit)) := by
  induction A generalizing c with
  | nil => simp [labelsAfterCommit]
  | cons e rest ih =>
    simp [labelsAfterCommit, ih, List.any_cons, Bool.or_assoc, Bool.and_assoc]

theorem labelsAfterCommit_true (A : List Event) : labelsAfterCommit A true = true := by
  induction A with
  | nil => rfl
  | cons e rest ih => simp [labelsAfterCommit, ih]

theorem labelsAfterCommit_of_all_not (A : List Event) (c : Bool)
    (h : A.all (fun e => !isLabelInsert e) = true) : labelsAfterCommit A c = true := by
  induction A generalizing c with
  | nil => rfl
  | cons e rest ih =>
    simp only [List.all_cons, Bool.and_eq_true, Bool.not_eq_true'] at h
    simp [labelsAfterCommit, h.1, ih _ h.2]

theorem labelsAfterCommit_parts (A B : List Event) (c : Bool)
    (hA : A.all (fun e => !isLabelInsert e) = true)
    (hB : labelsAfterCommit B (c || A.any isAssetCommit) = true) :
    labelsAfterCommit (A ++ B) c = true := by
  rw [labelsAfterCommit_append]
  simp [labelsAfterCommit_of_all_not A c hA, hB]

/-- A unit of work all of whose traces satisfy `p` everywhere keeps that
property under retry. -/
theorem pRetry_all (p : Event → Bool) (op : DbState → Res α)
    (h : ∀ d, ((op d).2.2).all p = true) :
    ∀ (n : Nat) (db : DbState), ((pRetry n op db).2.2).all p = true := by
  intro n
  induction n with
  | zero => intro db; exact h db
  | succ n ih =>
    intro db
    rcases hop : op db with ⟨r, db1, tr1⟩
    have h1 : tr1.all p = true := by have := h db; rw [hop] at this; exact this
    cases r with
    | ok a => simp [pRetry, hop, h1]
    | error e =>
      rcases hrec : pRetry n op db1 with ⟨r2, db2, tr2⟩
      have h2 : tr2.all p = true := by have := ih db1; rw [hrec] at this; exact this
      simp [pRetry, hop, hrec, List.all_append, h1, h2]

/-- If every successful run of the unit of work has an event satisfying
`p` in its trace, so does every successful retried run. -/
theorem pRetry_ok_any (p : Event → Bool) (op : DbState → Res α)
    (h : ∀ d a db2 tr, op d = (Except.ok a, db2, tr) → tr.any p = true) :
    ∀ (n : Nat) (db : DbState) (a : α) (db2 : DbState) (tr : List Event),
      pRetry n op db = (Except.ok a, db2, tr) → tr.any p = true := by
  intro n
  induction n with
  | zero => intro db a db2 tr hr; exact h db a db2 tr hr
  | succ n ih =>
    intro db a db2 tr hr
    rcases hop : op db with ⟨r, db1, tr1⟩
    cases r with
    | ok b =>
      simp only [pRetry, hop, Prod.mk.injEq] at hr
      rcases hr with ⟨hb, hdb, htr⟩
      subst htr
      exact h db b db1 tr1 hop
    | error e =>
      rcases hrec : pRetry n op db1 with ⟨r2, db3, tr2⟩
      simp only [pRetry, hop, hrec, Prod.mk.injEq] at hr
      rcases hr with ⟨hb, hdb, htr⟩
      subst htr
      cases r2 with
      | ok b =>
        have h2 : tr2.any p = true := ih db1 b db3 tr2 hrec
        simp [List.any_append, h2]
      | error e2 => simp at hb

/-- A trace all of whose events differ from `connClose` has no close. -/
theorem not_mem_of_all_notClose (tr : List Event)
    (h : tr.all (fun e => !(e == Event.connClose)) = true) :
    Event.connClose ∉ tr := by
  intro hmem
  have hx := (List.all_eq_true.mp h) _ hmem
  simp at hx

theorem validate_assetid_gil_trace (d : DbState) (assetid : Int) :
    (ApiGetImageLabels.validate_assetid d assetid).2.2 =
      [Event.dbQuery "Select assetid From assets Where assetid = ?"] := by
  simp only [ApiGetImageLabels.validate_assetid]
  split <;> rfl

/-- Every trace of `get_image_labels` starts with the connection
acquisition. -/
theorem get_image_labels_trace_cons (db : DbState) (assetid : Int) :
    ∃ rest, (ApiGetImageLabels.get_image_labels db assetid).2.2 = Event.connAcquire :: rest := by
  unfold ApiGetImageLabels.get_image_labels
  split
  · exact ⟨_, rfl⟩
  · split
    · exact ⟨_, rfl⟩
    · exact ⟨_, rfl⟩

/-- No trace of `get_image_labels` ever contains a close event. -/
theorem get_image_labels_trace_all_notClose (db : DbState) (assetid : Int) :
    ((ApiGetImageLabels.get_image_labels db assetid).2.2).all
      (fun e => !(e == Event.connClose)) = true := by
  have hv : ∀ d : DbState,
      ((ApiGetImageLabels.validate_assetid d assetid).2.2).all
        (fun e => !(e == Event.connClose)) = true := by
    intro d; rw [validate_assetid_gil_trace]; rfl
  have hf : ∀ d : DbState,
      ((ApiGetImageLabels.fetch_labels d assetid).2.2).all
        (fun e => !(e == Event.connClose)) = true := by
    intro d; rfl
  unfold ApiGetImageLabels.get_image_labels
  split
  next e db1 tr1 h =>
    have h1 := pRetry_all _ (fun d => ApiGetImageLabels.validate_assetid d assetid) hv 2 db
    rw [h] at h1
    simpa using h1
  next u db1 tr1 h =>
    have h1 := pRetry_all _ (fun d => ApiGetImageLabels.validate_assetid d assetid) hv 2 db
    rw [h] at h1
    split
    next e2 db2 tr2 h3 =>
      have h2 := pRetry_all _ (fun d => ApiGetImageLabels.fetch_labels d assetid) hf 2 db1
      rw [h3] at h2
      simp [List.all_append, h1, h2]
    next records db2 tr2 h3 =>
      have h2 := pRetry_all _ (fun d => ApiGetImageLabels.fetch_labels d assetid) hf 2 db1
      rw [h3] at h2
      simp [List.all_append, h1, h2]

/-- C6: the claim says every operation closes the connection acquired at
request entry on every path; `get_image_labels` refutes it: its trace
contains the acquisition and never a close, on success and failure
alike (the source has no `finally` and never calls `dbConn.end()`). -/
theorem C6_get_image_labels_connection_leak (db : DbState) (assetid : Int) :
    Event.connAcquire ∈ (ApiGetImageLabels.get_image_labels db assetid).2.2 ∧
    Event.connClose ∉ (ApiGetImageLabels.get_image_labels db assetid).2.2 := by
  constructor
  · rcases get_image_labels_trace_cons db assetid with ⟨rest, hsh⟩
    rw [hsh]
    exact List.mem_cons_self _ _
  · exact not_mem_of_all_notClose _ (get_image_labels_trace_all_notClose db assetid)

/-- C1: for a List Labels request whose assetid matches zero asset rows,
the code answers status 500 (not a 4xx caller-error status as the claim
and the function's own doc comment state), with message "no such
assetid" and an empty data list. -/
theorem C1_unknown_assetid_status_500 :
    (ApiGetImageLabels.get_image_labels
        { users := [], assets := [], labels := [], nextAssetId := 1001 } 42).1 =
      { status := 500, message := "no such assetid", data := [] } := by
  decide

/-- Store used for the C8 evaluation: one asset owned by user 5, no
asset owned by user 0. -/
def dbC8 : DbState :=
  { users := [⟨5, "eve"⟩],
    assets := [⟨1001, 5, "a.jpg", "eve/k-a.jpg"⟩],
    labels := [], nextAssetId := 1002 }

/-- C8: the claim says an owner filter matching no asset yields success
with an empty list, never an error; `userid=0` refutes it: the query is
built with a `Where userid = ?` placeholder (`0 >= 0`) but `0` is falsy
in JavaScript so no bind value is passed, `execute` fails, and the
handler answers 500 — although the filter matches no asset row. -/
theorem C8_owner_filter_zero_is_error :
    (ApiGetImages.get_images dbC8 (some (some 0))).1.status = 500 ∧
    (ApiGetImages.get_images dbC8 (some (some 0))).1.message ≠ "success" ∧
    (ApiGetImages.get_images dbC8 (some (some 0))).1.data = [] ∧
    dbC8.assets.filter (fun a => a.userid == (0 : Int)) = [] := by
  decide

/-- C10: a Retrieve request whose assetid path parameter does not parse
as a number fails with status 500, userid -1 and the fixed message,
leaves the store untouched, and its trace holds only the connection
acquisition and the `finally` close — no query and no object-store
call is ever issued. -/
theorem C10_non_numeric_assetid (w : World) (db : DbState) :
    (ApiGetImage.get_image w db none).1 =
      { status := 500, message := "get_image: assetid is not numeric",
        userid := -1, local_filename := none, data := none } ∧
    (ApiGetImage.get_image w db none).2.1 = db ∧
    (ApiGetImage.get_image w db none).2.2 = [Event.connAcquire, Event.connClose] :=
  ⟨rfl, rfl, rfl⟩

/-- World used for the C5 evaluation: the database clear succeeds, the
object-store deletion fails. -/
def wC5 : World :=
  { uuid := "k", bktPutOk := true, bktPutErr := "", detectResult := Except.ok [],
    assetInsertOk := true, assetInsertErr := "",
    labelInsertOk := fun _ _ => true, labelInsertErr := "",
    clearDbOk := true, clearDbErr := "",
    bktDeleteOk := false, bktDeleteErr := "s3 delete failed",
    bktGetOk := true, bktGetErr := "", bktGetData := "" }

/-- Store used for the C5 evaluation: one asset, so keys are nonempty
and the bucket deletion is attempted. -/
def dbC5 : DbState :=
  { users := [], assets := [⟨1001, 5, "a.jpg", "eve/k-a.jpg"⟩], labels := [], nextAssetId := 1002 }

/-- C5 counterexample: with the database cleared successfully and the
object-store deletion failing, `delete_images` does NOT report success:
it answers 500 carrying the deletion error's message. -/
theorem C5_counterexample_bucket_failure_surfaced :
    (ApiDeleteImages.delete_images wC5 dbC5).1.status = 500 ∧
    (ApiDeleteImages.delete_images wC5 dbC5).1.message = "s3 delete failed" ∧
    (ApiDeleteImages.delete_images wC5 dbC5).1.message ≠ "success" := by
  decide

/-- C5 (amended): when the database-clearing transaction succeeds but
the subsequent object-store deletion fails (with at least one key to
delete), the operation reports the failure — status 500 with the
deletion error's message — while the database remains cleared. -/
theorem C5_amended_bucket_failure_reported (w : World) (db : DbState)
    (hc : w.clearDbOk = true) (hb : w.bktDeleteOk = false) (hk : db.assets ≠ []) :
    (ApiDeleteImages.delete_images w db).1 = { status := 500, message := w.bktDeleteErr } ∧
    (ApiDeleteImages.delete_images w db).2.1.assets = [] ∧
    (ApiDeleteImages.delete_images w db).2.1.labels = [] := by
  have hlen : 0 < db.assets.length := List.length_pos.mpr hk
  simp [ApiDeleteImages.delete_images, pRetry, ApiDeleteImages.get_keys,
    ApiDeleteImages.clear_db, ApiDeleteImages.clear_bkt, hc, hb, hlen, JsError.message]

/-- C5 witness: the amended theorem applied at the concrete store and
world of the counterexample. -/
theorem C5_amended_witness :
    (ApiDeleteImages.delete_images wC5 dbC5).1 = { status := 500, message := "s3 delete failed" } :=
  (C5_amended_bucket_failure_reported wC5 dbC5 rfl rfl (by decide)).1

/-- A successful run of the label-insert loop appends exactly the
floored batch to the `labels` table and touches nothing else. -/
theorem insert_label_rows_ok (w : World) (assetid : Int) :
    ∀ (rkg : List RkgLabel) (db : DbState) (a : Unit) (db2 : DbState) (tr : List Event),
      ApiPostImage.insert_label_rows w assetid rkg db = (Except.ok a, db2, tr) →
      db2 = { db with
        labels := db.labels ++ rkg.map (fun l => ⟨assetid, l.Name, Rat.floor l.Confidence⟩) } := by
  intro rkg
  induction rkg with
  | nil =>
    intro db a db2 tr h
    simp only [ApiPostImage.insert_label_rows, Prod.mk.injEq] at h
    rcases h with ⟨_, hdb, _⟩
    simp [← hdb]
  | cons l rest ih =>
    intro db a db2 tr h
    simp only [ApiPostImage.insert_label_rows] at h
    by_cases hok : w.labelInsertOk assetid l.Name = true
    · rw [if_pos hok] at h
      rcases hrec : ApiPostImage.insert_label_rows w assetid rest
          { db with labels := db.labels ++ [⟨assetid, l.Name, Rat.floor l.Confidence⟩] }
        with ⟨r, db3, tr3⟩
      rw [hrec] at h
      simp only [Prod.mk.injEq] at h
      rcases h with ⟨hr, hdb, htr⟩
      cases r with
      | ok b =>
        have hmid := ih _ b db3 tr3 hrec
        subst hdb
        rw [hmid]
        simp [List.append_assoc]
      | error e => simp at hr
    · rw [if_neg hok] at h
      simp only [Prod.mk.injEq] at h
      rcases h with ⟨hr, _, _⟩
      simp at hr

/-- C7: label persistence is atomic — a successful `update_labels`
commits exactly the whole floored batch, any failure leaves the labels
table as it was, and the assets table (the already-committed Asset row
in particular) is untouched either way. -/
theorem C7_update_labels_atomic (w : World) (db : DbState) (assetid : Int)
    (rkg_labels : List RkgLabel) :
    ((ApiPostImage.update_labels w db assetid rkg_labels).2.1.labels =
      match (ApiPostImage.update_labels w db assetid rkg_labels).1 with
      | Except.ok _ =>
        db.labels ++ rkg_labels.map (fun l => ⟨assetid, l.Name, Rat.floor l.Confidence⟩)
      | Except.error _ => db.labels) ∧
    (ApiPostImage.update_labels w db assetid rkg_labels).2.1.assets = db.assets := by
  unfold ApiPostImage.update_labels
  rcases h : ApiPostImage.insert_label_rows w assetid rkg_labels db with ⟨r, db1, tr⟩
  cases r with
  | ok a =>
    have hdb := insert_label_rows_ok w assetid rkg_labels db a db1 tr h
    subst hdb
    simp
  | error e => simp

/-- C3: an upload whose owner id matches zero user rows terminates with
status 400 and `{message: "no such userid", assetid: -1}`, leaves the
store untouched (no Asset row, no Label row), and never issues an
object-store put. -/
theorem C3_unknown_userid_rejected (w : World) (db : DbState) (userid : Int)
    (local_filename : String)
    (h : db.users.filter (fun u => u.userid == userid) = []) :
    (ApiPostImage.post_image w db userid local_filename).1 =
      { status := 400, message := "no such userid", assetid := -1 } ∧
    (ApiPostImage.post_image w db userid local_filename).2.1 = db ∧
    ((ApiPostImage.post_image w db userid local_filename).2.2).all
      (fun e => !isBktPut e) = true := by
  have hl : ApiPostImage.lookup_user db userid =
      (Except.error (JsError.valueError "no such userid"), db,
        [Event.dbQuery "Select username From users Where userid = ?"]) := by
    simp [ApiPostImage.lookup_user, h]
  simp [ApiPostImage.post_image, ApiPostImage.try_post, bindR, pRetry, hl,
    ApiPostImage.post_image_err, isBktPut]

/-- World used for the C3 witness (its oracle fields are never consulted
on the rejected path). -/
def wC3 : World :=
  { uuid := "u3", bktPutOk := true, bktPutErr := "", detectResult := Except.ok [],
    assetInsertOk := true, assetInsertErr := "",
    labelInsertOk := fun _ _ => true, labelInsertErr := "",
    clearDbOk := true, clearDbErr := "",
    bktDeleteOk := true, bktDeleteErr := "",
    bktGetOk := true, bktGetErr := "", bktGetData := "" }

/-- C3 witness: the theorem applied at a concrete store with no user
999999. -/
theorem C3_unknown_userid_witness :
    (ApiPostImage.post_image wC3
        { users := [], assets := [], labels := [], nextAssetId := 1001 }
        999999 "cat.jpg").1 =
      { status := 400, message := "no such userid", assetid := -1 } :=
  (C3_unknown_userid_rejected wC3
    { users := [], assets := [], labels := [], nextAssetId := 1001 }
    999999 "cat.jpg" rfl).1

/-! ## C2: every label insert happens after the asset commit -/

theorem lookup_user_noLI (d : DbState) (userid : Int) :
    ((ApiPostImage.lookup_user d userid).2.2).all (fun e => !isLabelInsert e) = true := by
  simp only [ApiPostImage.lookup_user]
  split <;> rfl

theorem upload_to_bucket_noLI (w : World) (d : DbState) (username fn : String) :
    ((ApiPostImage.upload_to_bucket w d username fn).2.2).all
      (fun e => !isLabelInsert e) = true := by
  simp only [ApiPostImage.upload_to_bucket]
  split <;> rfl

theorem update_db_noLI (w : World) (d : DbState) (userid : Int) (fn bkt_key : String) :
    ((ApiPostImage.update_db w d userid fn bkt_key).2.2).all
      (fun e => !isLabelInsert e) = true := by
  simp only [ApiPostImage.update_db]
  split <;> rfl

theorem detect_labels_noLI (w : World) (d : DbState) :
    ((ApiPostImage.detect_labels w d).2.2).all (fun e => !isLabelInsert e) = true := by
  simp only [ApiPostImage.detect_labels]
  split <;> rfl

/-- A successful `update_db` run always has the asset commit in its
trace. -/
theorem update_db_ok_commit (w : World) (d : DbState) (userid : Int) (fn bkt_key : String)
    (a : Int) (db2 : DbState) (tr : List Event)
    (h : ApiPostImage.update_db w d userid fn bkt_key = (Except.ok a, db2, tr)) :
    tr.any isAssetCommit = true := by
  simp only [ApiPostImage.update_db] at h
  by_cases hok : w.assetInsertOk = true
  · rw [if_pos hok] at h
    simp only [Prod.mk.injEq] at h
    rcases h with ⟨_, _, htr⟩
    subst htr
    rfl
  · rw [if_neg hok] at h
    simp at h

/-- No unit of the concurrent fan-out (asset registration under retry,
label detection) ever issues a label insert. -/
theorem fanout_noLI (w : World) (userid : Int) (fn bkt_key : String) (db : DbState) :
    ((ApiPostImage.fanout w userid fn bkt_key db).2.2).all
      (fun e => !isLabelInsert e) = true := by
  simp only [ApiPostImage.fanout]
  rcases ha : pRetry 2 (fun d => ApiPostImage.update_db w d userid fn bkt_key) db
    with ⟨ra, dba, tra⟩
  have hA : tra.all (fun e => !isLabelInsert e) = true := by
    have hx := pRetry_all _ (fun d => ApiPostImage.update_db w d userid fn bkt_key)
      (fun d => update_db_noLI w d userid fn bkt_key) 2 db
    rw [ha] at hx; exact hx
  simp only [ha]
  rcases hd : ApiPostImage.detect_labels w dba with ⟨rd, dbd, trd⟩
  have hD : trd.all (fun e => !isLabelInsert e) = true := by
    have hx := detect_labels_noLI w dba; rw [hd] at hx; exact hx
  simp only [hd]
  cases ra <;> cases rd <;> simp [List.all_append, hA, hD]

/-- A successful fan-out has the asset commit in its trace. -/
theorem fanout_ok_commit (w : World) (userid : Int) (fn bkt_key : String) (db : DbState)
    (pair : Int × List RkgLabel) (db4 : DbState) (tr : List Event)
    (h : ApiPostImage.fanout w userid fn bkt_key db = (Except.ok pair, db4, tr)) :
    tr.any isAssetCommit = true := by
  simp only [ApiPostImage.fanout] at h
  rcases ha : pRetry 2 (fun d => ApiPostImage.update_db w d userid fn bkt_key) db
    with ⟨ra, dba, tra⟩
  simp only [ha] at h
  rcases hd : ApiPostImage.detect_labels w dba with ⟨rd, dbd, trd⟩
  simp only [hd] at h
  cases ra with
  | error e => cases rd <;> simp at h
  | ok aid =>
    cases rd with
    | error e => simp at h
    | ok ls =>
      simp only [Prod.mk.injEq] at h
      rcases h with ⟨_, _, htr⟩
      subst htr
      have hAC : tra.any isAssetCommit = true := by
        apply pRetry_ok_any isAssetCommit
          (fun d => ApiPostImage.update_db w d userid fn bkt_key)
          (fun d a db2 tr hh => update_db_ok_commit w d userid fn bkt_key a db2 tr hh)
          2 db aid dba tra
        rw [ha]
      simp [List.any_append, hAC]

/-- The trace of the whole upload pipeline body never has a label
insert before the asset commit. -/
theorem try_post_lac (w : World) (userid : Int) (fn : String) (db : DbState) :
    labelsAfterCommit ((ApiPostImage.try_post w userid fn db).2.2) false = true := by
  unfold ApiPostImage.try_post
  rcases h1 : pRetry 2 (fun d => ApiPostImage.lookup_user d userid) db with ⟨r1, db1, tr1⟩
  have htr1 : tr1.all (fun e => !isLabelInsert e) = true := by
    have hx := pRetry_all _ (fun d => ApiPostImage.lookup_user d userid)
      (fun d => lookup_user_noLI d userid) 2 db
    rw [h1] at hx; exact hx
  cases r1 with
  | error e =>
    simp only [bindR]
    exact labelsAfterCommit_of_all_not _ _ htr1
  | ok username =>
    simp only [bindR]
    apply labelsAfterCommit_parts _ _ _ htr1
    rcases h2 : ApiPostImage.upload_to_bucket w db1 username fn with ⟨r2, db2, tr2⟩
    have htr2 : tr2.all (fun e => !isLabelInsert e) = true := by
      have hx := upload_to_bucket_noLI w db1 username fn; rw [h2] at hx; exact hx
    cases r2 with
    | error e2 =>
      simp only [bindR]
      exact labelsAfterCommit_of_all_not _ _ htr2
    | ok bkt_key =>
      simp only [bindR]
      apply labelsAfterCommit_parts _ _ _ htr2
      rcases h3 : ApiPostImage.fanout w userid fn bkt_key db2 with ⟨r3, db4, tr3⟩
      have htr3 : tr3.all (fun e => !isLabelInsert e) = true := by
        have hx := fanout_noLI w userid fn bkt_key db2; rw [h3] at hx; exact hx
      cases r3 with
      | error e3 =>
        simp only [bindR]
        exact labelsAfterCommit_of_all_not _ _ htr3
      | ok pair =>
        simp only [bindR]
        apply labelsAfterCommit_parts _ _ _ htr3
        have hAC : tr3.any isAssetCommit = true :=
          fanout_ok_commit w userid fn bkt_key db2 pair db4 tr3 h3
        rw [hAC]
        simp [labelsAfterCommit_true]

/-- Wrapping a well-ordered trace in the handler's connection
acquisition and `finally` close preserves the ordering property. -/
theorem lac_wrap (tr : List Event) (h : labelsAfterCommit tr false = true) :
    labelsAfterCommit (Event.connAcquire :: tr ++ [Event.connClose]) false = true := by
  have h2 : labelsAfterCommit (tr ++ [Event.connClose]) false = true := by
    rw [labelsAfterCommit_append]
    simp [h, labelsAfterCommit, isLabelInsert]
  simpa [labelsAfterCommit, isLabelInsert, isAssetCommit] using h2

/-- C2: in every execution of the upload pipeline, a label-row insert
only ever occurs after the asset-registration transaction's commit:
`update_labels` runs strictly after `update_db` has returned the
committed assetid. -/
theorem C2_label_insert_only_after_asset_commit (w : World) (db : DbState)
    (userid : Int) (local_filename : String) :
    labelsAfterCommit ((ApiPostImage.post_image w db userid local_filename).2.2) false = true := by
  have hmain := try_post_lac w userid local_filename db
  unfold ApiPostImage.post_image
  rcases h : ApiPostImage.try_post w userid local_filename db with ⟨r, db5, tr⟩
  rw [h] at hmain
  cases r with
  | ok assetid => exact lac_wrap tr hmain
  | error e => exact lac_wrap tr hmain

/-! ## C4: a committed Asset row survives a label-detection failure -/

theorem mem_insertByAssetid (r x : AssetRow) (l : List AssetRow) :
    x ∈ insertByAssetid r l ↔ x = r ∨ x ∈ l := by
  induction l with
  | nil => simp [insertByAssetid]
  | cons y ys ih =>
    simp only [insertByAssetid]
    split
    · simp [List.mem_cons]
    · simp only [List.mem_cons, ih]
      tauto

theorem mem_orderByAssetidAsc (x : AssetRow) (l : List AssetRow) :
    x ∈ orderByAssetidAsc l ↔ x ∈ l := by
  induction l with
  | nil => simp [orderByAssetidAsc]
  | cons y ys ih => simp [orderByAssetidAsc, mem_insertByAssetid, ih]

/-- Full result of the upload pipeline when the owner resolves to one
user, the object put and the asset insert succeed and label detection
fails: the detection error surfaces (after the committed registration)
and the new asset row is in the final store with no label rows added. -/
theorem post_image_detect_fail_result (w : World) (db : DbState) (userid : Int)
    (fn : String) (u : UserRow) (m : String)
    (hu : db.users.filter (fun x => x.userid == userid) = [u])
    (hput : w.bktPutOk = true)
    (hins : w.assetInsertOk = true)
    (hdet : w.detectResult = Except.error m) :
    ApiPostImage.post_image w db userid fn =
      ( { status := 500, message := m, assetid := -1 },
        { db with
            assets := db.assets ++
              [⟨db.nextAssetId, userid, fn, u.username ++ "/" ++ w.uuid ++ "-" ++ fn⟩],
            nextAssetId := db.nextAssetId + 1 },
        [Event.connAcquire,
         Event.dbQuery "Select username From users Where userid = ?",
         Event.bktPut (u.username ++ "/" ++ w.uuid ++ "-" ++ fn),
         Event.beginTxn, Event.assetInsert db.nextAssetId,
         Event.assetCommit db.nextAssetId,
         Event.rkgDetect, Event.connClose] ) := by
  have hl : ApiPostImage.lookup_user db userid =
      (Except.ok u.username, db,
        [Event.dbQuery "Select username From users Where userid = ?"]) := by
    simp [ApiPostImage.lookup_user, hu]
  simp [ApiPostImage.post_image, ApiPostImage.try_post, bindR, pRetry, hl,
    ApiPostImage.upload_to_bucket, hput, ApiPostImage.fanout, ApiPostImage.update_db,
    hins, ApiPostImage.detect_labels, hdet, ApiPostImage.post_image_err]

/-- C4: when database registration commits its Asset row but label
detection fails concurrently, the pipeline fails (5xx, assetid -1)
without rolling the Asset row back: the new asset is in the store,
List Assets lists it, Retrieve succeeds for it, and List Labels for it
returns an empty list. -/
theorem C4_detect_failure_keeps_asset (w w2 : World) (db : DbState) (userid : Int)
    (fn : String) (u : UserRow) (m : String)
    (hu : db.users.filter (fun x => x.userid == userid) = [u])
    (hput : w.bktPutOk = true)
    (hins : w.assetInsertOk = true)
    (hdet : w.detectResult = Except.error m)
    (hfreshA : db.assets.filter (fun a => a.assetid == db.nextAssetId) = [])
    (hfreshL : db.labels.filter (fun l => l.assetid == db.nextAssetId) = [])
    (hget : w2.bktGetOk = true) :
    (ApiPostImage.post_image w db userid fn).1.status = 500 ∧
    (ApiPostImage.post_image w db userid fn).1.assetid = -1 ∧
    (⟨db.nextAssetId, userid, fn, u.username ++ "/" ++ w.uuid ++ "-" ++ fn⟩ : AssetRow) ∈
      (ApiPostImage.post_image w db userid fn).2.1.assets ∧
    (ApiGetImages.get_images (ApiPostImage.post_image w db userid fn).2.1 none).1.message =
      "success" ∧
    (⟨db.nextAssetId, userid, fn, u.username ++ "/" ++ w.uuid ++ "-" ++ fn⟩ : AssetRow) ∈
      (ApiGetImages.get_images (ApiPostImage.post_image w db userid fn).2.1 none).1.data ∧
    (ApiGetImage.get_image w2 (ApiPostImage.post_image w db userid fn).2.1
        (some db.nextAssetId)).1.status = 200 ∧
    (ApiGetImage.get_image w2 (ApiPostImage.post_image w db userid fn).2.1
        (some db.nextAssetId)).1.userid = userid ∧
    (ApiGetImageLabels.get_image_labels (ApiPostImage.post_image w db userid fn).2.1
        db.nextAssetId).1 =
      { status := 200, message := "success", data := [] } := by
  rw [post_image_detect_fail_result w db userid fn u m hu hput hins hdet]
  have hneg1 : ¬ ((-1 : Int) ≥ 0) := by decide
  have hneg2 : ¬ ((-1 : Int) = 0) := by decide
  refine ⟨rfl, rfl, ?_, ?_, ?_, ?_, ?_, ?_⟩
  · simp
  · simp [ApiGetImages.get_images, pRetry, ApiGetImages.try_get_images, hneg1, hneg2]
  · simp [ApiGetImages.get_images, pRetry, ApiGetImages.try_get_images, hneg1, hneg2,
      mem_orderByAssetidAsc]
  · simp [ApiGetImage.get_image, pRetry, ApiGetImage.validate_assetid,
      List.filter_append, hfreshA, ApiGetImage.download_image_str, hget]
  · simp [ApiGetImage.get_image, pRetry, ApiGetImage.validate_assetid,
      List.filter_append, hfreshA, ApiGetImage.download_image_str, hget]
  · simp [ApiGetImageLabels.get_image_labels, pRetry, ApiGetImageLabels.validate_assetid,
      List.filter_append, hfreshA, hfreshL, ApiGetImageLabels.fetch_labels, orderByLabelAsc]

/-- World used for the C4 witness: everything succeeds except label
detection. -/
def wC4 : World :=
  { uuid := "u4", bktPutOk := true, bktPutErr := "",
    detectResult := Except.error "rekognition failed",
    assetInsertOk := true, assetInsertErr := "",
    labelInsertOk := fun _ _ => true, labelInsertErr := "",
    clearDbOk := true, clearDbErr := "",
    bktDeleteOk := true, bktDeleteErr := "", bktGetOk := true, bktGetErr := "",
    bktGetData := "QUJD" }

/-- Store used for the C4 witness. -/
def dbC4 : DbState :=
  { users := [⟨80001, "alice"⟩], assets := [], labels := [], nextAssetId := 1001 }

/-- C4 witness: the theorem applied at a concrete store and world. -/
theorem C4_witness :
    (ApiPostImage.post_image wC4 dbC4 80001 "cat.jpg").1.status = 500 ∧
    (ApiGetImageLabels.get_image_labels
        (ApiPostImage.post_image wC4 dbC4 80001 "cat.jpg").2.1 1001).1 =
      { status := 200, message := "success", data := [] } := by
  have h := C4_detect_failure_keeps_asset wC4 wC4 dbC4 80001 "cat.jpg" ⟨80001, "alice"⟩
    "rekognition failed" (by decide) rfl rfl rfl (by decide) (by decide) rfl
  exact ⟨h.1, h.2.2.2.2.2.2.2⟩

/-! ## C9: label listing after a successful upload -/

theorem strLeAux_total : ∀ (a b : List Char), strLeAux a b = true ∨ strLeAux b a = true := by
  intro a
  induction a with
  | nil => intro b; left; rfl
  | cons x xs ih =>
    intro b
    cases b with
    | nil => right; rfl
    | cons y ys =>
      by_cases h1 : x.toNat < y.toNat
      · left; simp [strLeAux, h1]
      · by_cases h2 : y.toNat < x.toNat
        · right; simp [strLeAux, h2]
        · rcases ih ys with h | h
          · left; simp [strLeAux, h1, h2, h]
          · right; simp [strLeAux, h1, h2, h]

/-- Totality of the modelled collation. -/
theorem strLe_total (a b : String) : strLe a b = true ∨ strLe b a = true :=
  strLeAux_total a.data b.data

/-- Adjacent sortedness of a list of names under the modelled
collation. -/
def chainStrLe : List String → Bool
  | [] => true
  | [_] => true
  | a :: b :: rest => strLe a b && chainStrLe (b :: rest)

theorem length_insertByLabel (r : LabelRow) (l : List LabelRow) :
    (insertByLabel r l).length = l.length + 1 := by
  induction l with
  | nil => rfl
  | cons y ys ih =>
    simp only [insertByLabel]
    split
    · rfl
    · simp [ih]

theorem length_orderByLabelAsc (l : List LabelRow) :
    (orderByLabelAsc l).length = l.length := by
  induction l with
  | nil => rfl
  | cons y ys ih => simp [orderByLabelAsc, length_insertByLabel, ih]

theorem mem_insertByLabel (r x : LabelRow) (l : List LabelRow) :
    x ∈ insertByLabel r l ↔ x = r ∨ x ∈ l := by
  induction l with
  | nil => simp [insertByLabel]
  | cons y ys ih =>
    simp only [insertByLabel]
    split
    · simp [List.mem_cons]
    · simp only [List.mem_cons, ih]
      tauto

theorem mem_orderByLabelAsc (x : LabelRow) (l : List LabelRow) :
    x ∈ orderByLabelAsc l ↔ x ∈ l := by
  induction l with
  | nil => simp [orderByLabelAsc]
  | cons y ys ih => simp [orderByLabelAsc, mem_insertByLabel, ih]

/-- Inserting into a name-sorted row list keeps it name-sorted. -/
theorem chainStrLe_insertByLabel (r : LabelRow) (l : List LabelRow)
    (h : chainStrLe (l.map (fun x => x.label)) = true) :
    chainStrLe ((insertByLabel r l).map (fun x => x.label)) = true := by
  induction l with
  | nil => rfl
  | cons y ys ih =>
    simp only [insertByLabel]
    by_cases hc : strLe r.label y.label = true
    · rw [if_pos hc]
      simp only [List.map_cons] at h ⊢
      simp [chainStrLe, hc, h]
    · rw [if_neg hc]
      have hyr : strLe y.label r.label = true := by
        rcases strLe_total r.label y.label with ht | ht
        · exact absurd ht hc
        · exact ht
      cases ys with
      | nil => simp [insertByLabel, chainStrLe, hyr]
      | cons z zs =>
        simp only [List.map_cons, chainStrLe, Bool.and_eq_true] at h
        rcases h with ⟨hyz, hrest⟩
        have ih2 := ih (by simpa [List.map_cons] using hrest)
        simp only [insertByLabel] at ih2 ⊢
        by_cases hc2 : strLe r.label z.label = true
        · rw [if_pos hc2] at ih2 ⊢
          simp only [List.map_cons] at ih2 ⊢
          simp [chainStrLe, hyr, hc2]
          simpa [chainStrLe, hc2] using ih2
        · rw [if_neg hc2] at ih2 ⊢
          simp only [List.map_cons] at ih2 ⊢
          simp [chainStrLe, hyz]
          simpa [chainStrLe] using ih2

/-- The `Order By label Asc` result is name-sorted. -/
theorem chainStrLe_orderByLabelAsc (l : List LabelRow) :
    chainStrLe ((orderByLabelAsc l).map (fun x => x.label)) = true := by
  induction l with
  | nil => rfl
  | cons y ys ih =>
    simp only [orderByLabelAsc]
    exact chainStrLe_insertByLabel y _ ih

/-- With the per-row oracle succeeding on the whole batch, the insert
loop succeeds and appends exactly the floored batch. -/
theorem insert_label_rows_all_ok (w : World) (assetid : Int) :
    ∀ (rkg : List RkgLabel) (db : DbState),
      (∀ l ∈ rkg, w.labelInsertOk assetid l.Name = true) →
      ∃ tr, ApiPostImage.insert_label_rows w assetid rkg db =
        (Except.ok (),
          { db with labels :=
              db.labels ++ rkg.map (fun l => ⟨assetid, l.Name, Rat.floor l.Confidence⟩) },
          tr) := by
  intro rkg
  induction rkg with
  | nil =>
    intro db h
    exact ⟨[], by simp [ApiPostImage.insert_label_rows]⟩
  | cons l rest ih =>
    intro db h
    have hok := h l (List.mem_cons_self l rest)
    rcases ih { db with labels := db.labels ++ [⟨assetid, l.Name, Rat.floor l.Confidence⟩] }
        (fun x hx => h x (List.mem_cons_of_mem _ hx)) with ⟨tr, htr⟩
    refine ⟨Event.labelInsert assetid l.Name :: tr, ?_⟩
    simp only [ApiPostImage.insert_label_rows, if_pos hok, htr]
    simp [List.append_assoc]

/-- `update_labels` succeeds and commits the whole floored batch when
every insert succeeds. -/
theorem update_labels_all_ok (w : World) (db : DbState) (assetid : Int)
    (rkg : List RkgLabel)
    (h : ∀ l ∈ rkg, w.labelInsertOk assetid l.Name = true) :
    ∃ tr, ApiPostImage.update_labels w db assetid rkg =
      (Except.ok (),
        { db with labels :=
            db.labels ++ rkg.map (fun l => ⟨assetid, l.Name, Rat.floor l.Confidence⟩) },
        tr) := by
  rcases insert_label_rows_all_ok w assetid rkg db h with ⟨tr, htr⟩
  refine ⟨Event.beginTxn :: tr ++ [Event.commitTxn], ?_⟩
  simp [ApiPostImage.update_labels, htr]

/-- Response and final store of a fully successful upload pipeline. -/
theorem post_image_success_result (w : World) (db : DbState) (userid : Int)
    (fn : String) (u : UserRow) (rkg : List RkgLabel)
    (hu : db.users.filter (fun x => x.userid == userid) = [u])
    (hput : w.bktPutOk = true)
    (hins : w.assetInsertOk = true)
    (hdet : w.detectResult = Except.ok rkg)
    (hlbl : ∀ l ∈ rkg, w.labelInsertOk db.nextAssetId l.Name = true) :
    (ApiPostImage.post_image w db userid fn).1 =
      { status := 200, message := "success", assetid := db.nextAssetId } ∧
    (ApiPostImage.post_image w db userid fn).2.1 =
      { db with
          assets := db.assets ++
            [⟨db.nextAssetId, userid, fn, u.username ++ "/" ++ w.uuid ++ "-" ++ fn⟩],
          labels := db.labels ++
            rkg.map (fun l => ⟨db.nextAssetId, l.Name, Rat.floor l.Confidence⟩),
          nextAssetId := db.nextAssetId + 1 } := by
  have hl : ApiPostImage.lookup_user db userid =
      (Except.ok u.username, db,
        [Event.dbQuery "Select username From users Where userid = ?"]) := by
    simp [ApiPostImage.lookup_user, hu]
  rcases update_labels_all_ok w
      { db with
          assets := db.assets ++
            [⟨db.nextAssetId, userid, fn, u.username ++ "/" ++ w.uuid ++ "-" ++ fn⟩],
          nextAssetId := db.nextAssetId + 1 }
      db.nextAssetId rkg hlbl with ⟨trUL, hUL⟩
  constructor <;>
    simp [ApiPostImage.post_image, ApiPostImage.try_post, bindR, pRetry, hl,
      ApiPostImage.upload_to_bucket, hput, ApiPostImage.fanout, ApiPostImage.update_db,
      hins, ApiPostImage.detect_labels, hdet, hUL]

/-- When the assetid validates to exactly one row, `get_image_labels`
answers success with the asset's labels ordered by name. -/
theorem get_image_labels_success (db0 : DbState) (nid : Int) (r0 : AssetRow)
    (hA : db0.assets.filter (fun a => a.assetid == nid) = [r0]) :
    (ApiGetImageLabels.get_image_labels db0 nid).1 =
      { status := 200, message := "success",
        data := (orderByLabelAsc (db0.labels.filter (fun l => l.assetid == nid))).map
          (fun r => ⟨r.label, r.confidence⟩) } := by
  simp [ApiGetImageLabels.get_image_labels, pRetry, ApiGetImageLabels.validate_assetid, hA,
    ApiGetImageLabels.fetch_labels]

/-- C9: after a fully successful upload, List Labels for the new
assetid answers success; the data list has at most 10 entries (the
request's MaxLabels), every entry's confidence is the floor (truncated,
not rounded) of a detected label's score — hence at least 90 whenever
the detector honours the request's MinConfidence of 90 — and the list
is sorted by label name ascending. -/
theorem C9_labels_after_successful_upload (w : World) (db : DbState) (userid : Int)
    (fn : String) (u : UserRow) (rkg : List RkgLabel)
    (hu : db.users.filter (fun x => x.userid == userid) = [u])
    (hput : w.bktPutOk = true)
    (hins : w.assetInsertOk = true)
    (hdet : w.detectResult = Except.ok rkg)
    (hlbl : ∀ l ∈ rkg, w.labelInsertOk db.nextAssetId l.Name = true)
    (hlen : rkg.length ≤ 10)
    (hconf : ∀ l ∈ rkg, (90 : ℚ) ≤ l.Confidence)
    (hfreshA : db.assets.filter (fun a => a.assetid == db.nextAssetId) = [])
    (hfreshL : db.labels.filter (fun l => l.assetid == db.nextAssetId) = []) :
    (ApiPostImage.post_image w db userid fn).1 =
      { status := 200, message := "success", assetid := db.nextAssetId } ∧
    (ApiGetImageLabels.get_image_labels (ApiPostImage.post_image w db userid fn).2.1
        db.nextAssetId).1.status = 200 ∧
    (ApiGetImageLabels.get_image_labels (ApiPostImage.post_image w db userid fn).2.1
        db.nextAssetId).1.message = "success" ∧
    (ApiGetImageLabels.get_image_labels (ApiPostImage.post_image w db userid fn).2.1
        db.nextAssetId).1.data.length ≤ 10 ∧
    (∀ e ∈ (ApiGetImageLabels.get_image_labels (ApiPostImage.post_image w db userid fn).2.1
        db.nextAssetId).1.data, (90 : Int) ≤ e.confidence) ∧
    (∀ e ∈ (ApiGetImageLabels.get_image_labels (ApiPostImage.post_image w db userid fn).2.1
        db.nextAssetId).1.data,
      ∃ l ∈ rkg, e.label = l.Name ∧ e.confidence = Rat.floor l.Confidence) ∧
    chainStrLe
      (((ApiGetImageLabels.get_image_labels (ApiPostImage.post_image w db userid fn).2.1
          db.nextAssetId).1.data).map (fun e => e.label)) = true := by
  rcases post_image_success_result w db userid fn u rkg hu hput hins hdet hlbl with ⟨h1, h2⟩
  have hbatch :
      (rkg.map (fun l => (⟨db.nextAssetId, l.Name, Rat.floor l.Confidence⟩ : LabelRow))).filter
        (fun l => l.assetid == db.nextAssetId) =
      rkg.map (fun l => ⟨db.nextAssetId, l.Name, Rat.floor l.Confidence⟩) := by
    rw [List.filter_eq_self]
    intro a ha
    rcases List.mem_map.mp ha with ⟨l, hl, rfl⟩
    simp
  have hA : ((ApiPostImage.post_image w db userid fn).2.1).assets.filter
      (fun a => a.assetid == db.nextAssetId) =
      [⟨db.nextAssetId, userid, fn, u.username ++ "/" ++ w.uuid ++ "-" ++ fn⟩] := by
    rw [h2]
    simp [List.filter_append, hfreshA]
  have hL : ((ApiPostImage.post_image w db userid fn).2.1).labels.filter
      (fun l => l.assetid == db.nextAssetId) =
      rkg.map (fun l => ⟨db.nextAssetId, l.Name, Rat.floor l.Confidence⟩) := by
    rw [h2]
    simp only [List.filter_append, hfreshL, hbatch, List.nil_append]
  have hGL := get_image_labels_success ((ApiPostImage.post_image w db userid fn).2.1)
    db.nextAssetId _ hA
  rw [hL] at hGL
  refine ⟨h1, ?_, ?_, ?_, ?_, ?_, ?_⟩
  · rw [hGL]
  · rw [hGL]
  · rw [hGL]
    simp only [List.length_map, length_orderByLabelAsc]
    exact hlen
  · rw [hGL]
    intro e he
    rcases List.mem_map.mp he with ⟨r, hr, rfl⟩
    rcases List.mem_map.mp ((mem_orderByLabelAsc r _).mp hr) with ⟨l, hl, rfl⟩
    exact Rat.le_floor.mpr (by exact_mod_cast hconf l hl)
  · rw [hGL]
    intro e he
    rcases List.mem_map.mp he with ⟨r, hr, rfl⟩
    rcases List.mem_map.mp ((mem_orderByLabelAsc r _).mp hr) with ⟨l, hl, rfl⟩
    exact ⟨l, hl, rfl, rfl⟩
  · rw [hGL]
    simp only [List.map_map]
    exact chainStrLe_orderByLabelAsc _

/-- World used for the C9 witness: two detected labels ("Boat" at 95.5,
"Animal" at 91), everything succeeding. -/
def wC9 : World :=
  { uuid := "u9", bktPutOk := true, bktPutErr := "",
    detectResult := Except.ok [⟨"Boat", mkRat 191 2⟩, ⟨"Animal", 91⟩],
    assetInsertOk := true, assetInsertErr := "",
    labelInsertOk := fun _ _ => true, labelInsertErr := "",
    clearDbOk := true, clearDbErr := "",
    bktDeleteOk := true, bktDeleteErr := "", bktGetOk := true, bktGetErr := "",
    bktGetData := "QUJD" }

/-- Store used for the C9 witness. -/
def dbC9 : DbState :=
  { users := [⟨80001, "alice"⟩], assets := [], labels := [], nextAssetId := 1001 }

/-- C9 witness: the theorem applied at a concrete store and world. -/
theorem C9_witness :
    (ApiPostImage.post_image wC9 dbC9 80001 "cat.jpg").1 =
      { status := 200, message := "success", assetid := 1001 } ∧
    chainStrLe
      (((ApiGetImageLabels.get_image_labels
          (ApiPostImage.post_image wC9 dbC9 80001 "cat.jpg").2.1 1001).1.data).map
        (fun e => e.label)) = true := by
  have h := C9_labels_after_successful_upload wC9 dbC9 80001 "cat.jpg" ⟨80001, "alice"⟩
    [⟨"Boat", mkRat 191 2⟩, ⟨"Animal", 91⟩]
    (by decide) rfl rfl rfl (by decide) (by decide) (by decide) (by decide) (by decide)
  exact ⟨h.1, h.2.2.2.2.2.2⟩
